import Mathlib

/-!
Verification development for the `cluster-inventory-api` repository
(`apis/v1alpha1/authtokenrequest_types.go`).

The Go source declares the `AuthTokenRequest` custom resource schema with
kubebuilder validation markers (CEL transition rules, `MaxLength`,
`MaxItems`, `listType`).  We embed the data model and the validation
semantics those markers induce, together with a model of the reconciler
that the schema implies (that part of the repository is not among the
visible sources; the corresponding definitions are modelled from the
specification and say so in their doc comments).
-/

namespace ClusterInventory

/-- Embeds `rbacv1.PolicyRule` (external value type from
`k8s.io/api/rbac/v1`, treated as an opaque value carrier): verbs,
API groups, resources, resource names, non-resource URLs. -/
structure PolicyRule where
  verbs : List String
  apiGroups : List String
  resources : List String
  resourceNames : List String
  nonResourceURLs : List String
deriving DecidableEq

/-- Embeds `ClusterProfileRef` (authtokenrequest_types.go lines 94-106):
APIGroup, Kind, Name, Namespace of the referred cluster profile. -/
structure ClusterProfileRef where
  apiGroup : String
  kind : String
  name : String
  nameSpace : String
deriving DecidableEq

/-- Embeds `Role` (authtokenrequest_types.go lines 64-78): a namespace,
a role name and a list of policy rules.  Note the source puts no length
or format constraint markers on `Namespace` or `Name`. -/
structure Role where
  nameSpace : String
  name : String
  rules : List PolicyRule
deriving DecidableEq

/-- Embeds `ClusterRole` (authtokenrequest_types.go lines 81-90): a
cluster role name and a list of policy rules.  No length or format
constraint markers appear on `Name`. -/
structure ClusterRole where
  name : String
  rules : List PolicyRule
deriving DecidableEq

/-- Embeds `AuthTokenRequestSpec` (authtokenrequest_types.go lines 35-61).
`Roles` and `ClusterRoles` are `+optional`, so presence matters for the
CEL `has()` checks; they are embedded as `Option` values, `none` meaning
the field is absent from the object. -/
structure AuthTokenRequestSpec where
  targetClusterProfile : ClusterProfileRef
  serviceAccountName : String
  roles : Option (List Role)
  clusterRoles : Option (List ClusterRole)
deriving DecidableEq

/-- Embeds `ConfigMapRef` (authtokenrequest_types.go lines 123-132):
only APIGroup, Kind and Name.  There is no namespace field. -/
structure ConfigMapRef where
  apiGroup : String
  kind : String
  name : String
deriving DecidableEq

/-- The JSON field names declared on `ConfigMapRef` in the source
(`json:"apiGroup"`, `json:"kind"`, `json:"name"`): the serialized
reference carries exactly these keys and in particular no `namespace`
key, so a cross-namespace target is not even expressible. -/
def ConfigMapRef.jsonFields : List String := ["apiGroup", "kind", "name"]

/-- Embeds `metav1.Condition` (external): type, status, reason, message
and a last-transition timestamp (modelled as a natural number). -/
structure Condition where
  condType : String
  status : String
  reason : String
  message : String
  lastTransitionTime : Nat
deriving DecidableEq

/-- Embeds `AuthTokenRequestStatus` (authtokenrequest_types.go lines
109-116): an optional token-response reference and a condition list. -/
structure AuthTokenRequestStatus where
  tokenResponse : Option ConfigMapRef
  conditions : List Condition
deriving DecidableEq

/-- Embeds the object metadata fields relevant here (`metav1.ObjectMeta`,
external): object name and namespace. -/
structure ObjectMeta where
  name : String
  nameSpace : String
deriving DecidableEq

/-- Embeds `AuthTokenRequest` (authtokenrequest_types.go lines 13-22):
metadata, spec and status. -/
structure AuthTokenRequest where
  metadata : ObjectMeta
  spec : AuthTokenRequestSpec
  status : AuthTokenRequestStatus
deriving DecidableEq

/-! ### Validation semantics of the kubebuilder markers

`validateCreate` collects the static constraints
(`MaxLength=63` on `ServiceAccountName`, `MaxItems=20` on `Roles` and
`ClusterRoles`); they are the only static constraints in the source.
`validateUpdate` adds the CEL transition rules:

* type-level (lines 33-34): `!has(oldSelf.roles) || has(self.roles)`
  and likewise for `clusterRoles` — presence, once set, is kept;
* field-level `self == oldSelf` on `targetClusterProfile` (line 38),
  `serviceAccountName` (line 44), `roles` (line 52) and `clusterRoles`
  (line 59).  Per CEL transition-rule semantics a rule on an optional
  field is evaluated only when the field is present in both the old and
  the new object; on required fields it is always evaluated. -/

/-- The `MaxItems=20` check on an optional list field: vacuously true
when the field is absent. -/
def withinMaxItems {α : Type} (o : Option (List α)) : Bool :=
  match o with
  | none => true
  | some xs => decide (xs.length ≤ 20)

/-- The type-level CEL presence rule
`!has(oldSelf.f) || has(self.f)` (lines 33-34). -/
def presenceKept {α : Type} (old new : Option α) : Bool :=
  !old.isSome || new.isSome

/-- The field-level CEL rule `self == oldSelf` on an optional field
(lines 52 and 59): evaluated only when the field is present in both the
old and the new object. -/
def contentsKept {α : Type} [DecidableEq α] (old new : Option α) : Bool :=
  match old, new with
  | some o, some n => decide (o = n)
  | _, _ => true

/-- Static (create-time) schema validation of an `AuthTokenRequestSpec`:
`MaxLength=63` on `serviceAccountName` (line 45), `MaxItems=20` on
`roles` (line 51) and on `clusterRoles` (line 58). -/
def validateCreate (s : AuthTokenRequestSpec) : Bool :=
  decide (s.serviceAccountName.length ≤ 63)
    && withinMaxItems s.roles
    && withinMaxItems s.clusterRoles

/-- Update-time schema validation: the create-time constraints on the
new object plus all CEL transition rules of the source
(lines 33-34, 38, 44, 52, 59). -/
def validateUpdate (old new : AuthTokenRequestSpec) : Bool :=
  validateCreate new
    && presenceKept old.roles new.roles
    && presenceKept old.clusterRoles new.clusterRoles
    && decide (new.targetClusterProfile = old.targetClusterProfile)
    && decide (new.serviceAccountName = old.serviceAccountName)
    && contentsKept old.roles new.roles
    && contentsKept old.clusterRoles new.clusterRoles

/-- Uniqueness of `Roles` entries by the composite key namespace+name:
true when no two entries of the list share both fields. -/
def rolesUniqueByKey : List Role → Bool
  | [] => true
  | r :: rest =>
      rest.all (fun x => !(decide (x.nameSpace = r.nameSpace) && decide (x.name = r.name)))
        && rolesUniqueByKey rest

/-! ### Concrete objects used by counterexamples and witnesses -/

/-- A concrete cluster profile reference. -/
def profileA : ClusterProfileRef :=
  ⟨"multicluster.x-k8s.io", "ClusterProfile", "cluster-1", "fleet-system"⟩

/-- A concrete role entry. -/
def roleA : Role := ⟨"ns-1", "reader", []⟩

/-- A second concrete role entry, differing from `roleA` in name. -/
def roleB : Role := ⟨"ns-1", "writer", []⟩

/-- A concrete cluster role entry. -/
def clusterRoleA : ClusterRole := ⟨"cluster-reader", []⟩

/-- A concrete spec with `Roles` set. -/
def specOld : AuthTokenRequestSpec := ⟨profileA, "svc-a", some [roleA], none⟩

/-- Same as `specOld` except the contents of the (still present) `Roles`
list changed. -/
def specNewContents : AuthTokenRequestSpec := ⟨profileA, "svc-a", some [roleB], none⟩

/-- Same as `specOld` except `Roles` was removed entirely. -/
def specRolesRemoved : AuthTokenRequestSpec := ⟨profileA, "svc-a", none, none⟩

/-- Same as `specOld` except the service account name changed. -/
def specSaChanged : AuthTokenRequestSpec := ⟨profileA, "svc-b", some [roleA], none⟩

/-- A spec whose `Roles` list holds two entries sharing namespace+name. -/
def dupSpec : AuthTokenRequestSpec := ⟨profileA, "svc-a", some [roleA, roleA], none⟩

/-- A role name of 64 characters, one over the 63-character limit that
applies to `ServiceAccountName` (and to nothing else). -/
def longRoleName : String :=
  "aaaaaaaaaaaaaaaaaaaaaaaaaaaaaaaaaaaaaaaaaaaaaaaaaaaaaaaaaaaaaaaa"

/-- A role entry whose name is 64 characters long. -/
def longRole : Role := ⟨"ns-x", longRoleName, []⟩

/-- A cluster role entry whose name is 64 characters long. -/
def longClusterRole : ClusterRole := ⟨longRoleName, []⟩

/-! ### Token publication and reference resolution

The Token Publisher itself is not among the visible sources; the
definitions below are modelled from the specification (§4.3) and the
source comment on `ConfigMapRef` (lines 120-121): the token response
object is always kept in the same namespace as the token request
object. -/

/-- Modelled from the spec: the namespace in which the ConfigMap named
by `Status.TokenResponse` resides.  Since `ConfigMapRef` carries no
namespace field, the reference is resolved in the namespace of the
owning `AuthTokenRequest` (source comment, lines 120-121). -/
def tokenResponseNamespace (req : AuthTokenRequest) : String :=
  req.metadata.nameSpace

/-- Modelled from the spec: the Token Publisher records a reference to
the published ConfigMap in `Status.TokenResponse` (§4.3); the request is
otherwise unchanged. -/
def publishToken (req : AuthTokenRequest) (ref : ConfigMapRef) : AuthTokenRequest :=
  { req with status := { req.status with tokenResponse := some ref } }

/-! ### Reconciler model

The Resource Provisioner and the Reconciliation Driver are not among the
visible sources; the definitions below are modelled from the
specification (§4.1, §4.5, §8): the desired target-cluster object set is
derived from the spec, and each pass applies a create-if-absent
discipline to every desired object in order. -/

/-- Modelled from the spec: the kinds of objects the Resource
Provisioner manages in the target cluster (§4.1): namespaces, service
accounts, roles, role bindings, cluster roles, cluster role bindings. -/
inductive TargetObject where
  | nsObj (name : String)
  | serviceAccount (nameSpace name : String)
  | roleObj (nameSpace name : String) (rules : List PolicyRule)
  | roleBinding (nameSpace roleName saName : String)
  | clusterRoleObj (name : String) (rules : List PolicyRule)
  | clusterRoleBinding (roleName saName : String)
deriving DecidableEq

/-- Modelled from the spec: the target-cluster object set a spec demands
(§4.1): for each `Role` entry its namespace, a service account in that
namespace, the role itself and a binding; for each `ClusterRole` entry
the cluster role and a cluster role binding. -/
def desiredObjects (s : AuthTokenRequestSpec) : List TargetObject :=
  let rs := s.roles.getD []
  let crs := s.clusterRoles.getD []
  (rs.map fun r => TargetObject.nsObj r.nameSpace)
    ++ (rs.map fun r => TargetObject.serviceAccount r.nameSpace s.serviceAccountName)
    ++ (rs.map fun r => TargetObject.roleObj r.nameSpace r.name r.rules)
    ++ (rs.map fun r => TargetObject.roleBinding r.nameSpace r.name s.serviceAccountName)
    ++ (crs.map fun c => TargetObject.clusterRoleObj c.name c.rules)
    ++ (crs.map fun c => TargetObject.clusterRoleBinding c.name s.serviceAccountName)

/-- Modelled from the spec: the create-if-absent discipline (§4.1,
glossary): an object already present in the cluster state is left
untouched, a missing one is created. -/
def createIfAbsent (s : List TargetObject) (o : TargetObject) : List TargetObject :=
  if o ∈ s then s else s ++ [o]

/-- Modelled from the spec: one reconciliation pass of the Provisioner
over a cluster state: create-if-absent for each desired object in
order (§4.5: steps whose postconditions already hold are skipped). -/
def applyAll (s : List TargetObject) (os : List TargetObject) : List TargetObject :=
  os.foldl createIfAbsent s

/-! ### Status reporter model -/

/-- Modelled from the spec: the Status Reporter maintains conditions
with append/replace-by-type semantics (§3, §4.4): a condition whose type
is already recorded is replaced in place, otherwise the new condition is
appended. -/
def setCondition (conds : List Condition) (c : Condition) : List Condition :=
  if conds.any fun x => decide (x.condType = c.condType) then
    conds.map fun x => if x.condType = c.condType then c else x
  else
    conds ++ [c]

/-! ### Call-ordering model -/

/-- Modelled from the spec: the three kinds of external calls a
reconcile pass makes (§2, §5): Resource Provisioner calls, Token Minter
calls, Token Publisher calls. -/
inductive CallEvent where
  | provisionCall
  | mintCall
  | publishCall
deriving DecidableEq

/-- Pipeline position of each call kind: Provisioner before Minter
before Publisher. -/
def callRank : CallEvent → Nat
  | CallEvent.provisionCall => 0
  | CallEvent.mintCall => 1
  | CallEvent.publishCall => 2

/-- Modelled from the spec: the sequence of external calls one reconcile
pass makes for a given spec (§4.5, §5): one Provisioner call per desired
object; then, only if the Provisioner reported full success, one Minter
call; then, only if the mint succeeded, one Publisher call. -/
def reconcileTrace (s : AuthTokenRequestSpec) (provisionOK mintOK : Bool) :
    List CallEvent :=
  ((desiredObjects s).map fun _ => CallEvent.provisionCall)
    ++ (if provisionOK then
          CallEvent.mintCall :: (if mintOK then [CallEvent.publishCall] else [])
        else [])

/-! ### Helper lemmas about the validation functions -/

theorem validateUpdate_eq_true_iff (old new : AuthTokenRequestSpec) :
    validateUpdate old new = true ↔
      validateCreate new = true
        ∧ presenceKept old.roles new.roles = true
        ∧ presenceKept old.clusterRoles new.clusterRoles = true
        ∧ new.targetClusterProfile = old.targetClusterProfile
        ∧ new.serviceAccountName = old.serviceAccountName
        ∧ contentsKept old.roles new.roles = true
        ∧ contentsKept old.clusterRoles new.clusterRoles = true := by
  simp only [validateUpdate, Bool.and_eq_true, decide_eq_true_eq]
  tauto

theorem contentsKept_some_some {α : Type} [DecidableEq α] (a b : α) :
    contentsKept (some a) (some b) = true ↔ a = b := by
  simp [contentsKept]

theorem presenceKept_eq_false_of_removed {α : Type} {old new : Option α}
    (hOld : old.isSome = true) (hNew : new = none) :
    presenceKept old new = false := by
  subst hNew
  simp [presenceKept, hOld]

theorem withinMaxItems_some_iff {α : Type} (xs : List α) :
    withinMaxItems (some xs) = true ↔ xs.length ≤ 20 := by
  simp [withinMaxItems]

theorem validateCreate_eq_true_iff (s : AuthTokenRequestSpec) :
    validateCreate s = true ↔
      s.serviceAccountName.length ≤ 63
        ∧ withinMaxItems s.roles = true
        ∧ withinMaxItems s.clusterRoles = true := by
  simp only [validateCreate, Bool.and_eq_true, decide_eq_true_eq]
  tauto

/-! ### Claims -/

/-- C3: for every update to an `AuthTokenRequestSpec`, if the new
`TargetClusterProfile` differs from the old one, or the new
`ServiceAccountName` differs from the old one, validation rejects the
update (`self == oldSelf` rules at lines 38 and 44): once set, these two
fields never change. -/
theorem immutable_profile_and_service_account (old new : AuthTokenRequestSpec)
    (h : new.targetClusterProfile ≠ old.targetClusterProfile
      ∨ new.serviceAccountName ≠ old.serviceAccountName) :
    validateUpdate old new = false := by
  cases hv : validateUpdate old new with
  | false => rfl
  | true =>
      rcases (validateUpdate_eq_true_iff old new).mp hv with ⟨_, _, _, hp, hs, _, _⟩
      rcases h with h | h
      · exact absurd hp h
      · exact absurd hs h

/-- Witness for C3 at a concrete input: changing the service account
name from `svc-a` to `svc-b` is rejected. -/
theorem immutable_profile_and_service_account_witness :
    (specSaChanged.targetClusterProfile ≠ specOld.targetClusterProfile
      ∨ specSaChanged.serviceAccountName ≠ specOld.serviceAccountName)
      ∧ validateUpdate specOld specSaChanged = false :=
  ⟨Or.inr (by decide),
    immutable_profile_and_service_account specOld specSaChanged (Or.inr (by decide))⟩

/-- C4: for every update in which the old spec has `Roles` set
(respectively `ClusterRoles` set) and the new spec omits that field
entirely, validation rejects the update: the type-level CEL rules at
lines 33-34 make presence, once established, permanent. -/
theorem presence_immutable (old new : AuthTokenRequestSpec)
    (h : (old.roles.isSome = true ∧ new.roles = none)
      ∨ (old.clusterRoles.isSome = true ∧ new.clusterRoles = none)) :
    validateUpdate old new = false := by
  cases hv : validateUpdate old new with
  | false => rfl
  | true =>
      rcases (validateUpdate_eq_true_iff old new).mp hv with ⟨_, hr, hcr, _, _, _, _⟩
      rcases h with ⟨hs, hn⟩ | ⟨hs, hn⟩
      · exact absurd hr (by simp [presenceKept_eq_false_of_removed hs hn])
      · exact absurd hcr (by simp [presenceKept_eq_false_of_removed hs hn])

/-- Witness for C4 at a concrete input: removing the `Roles` field that
`specOld` had set is rejected. -/
theorem presence_immutable_witness :
    ((specOld.roles.isSome = true ∧ specRolesRemoved.roles = none)
      ∨ (specOld.clusterRoles.isSome = true ∧ specRolesRemoved.clusterRoles = none))
      ∧ validateUpdate specOld specRolesRemoved = false :=
  ⟨Or.inl ⟨by decide, by decide⟩,
    presence_immutable specOld specRolesRemoved (Or.inl ⟨by decide, by decide⟩)⟩

/-- C1, counterexample: an update that keeps `Roles` present but changes
its contents (here, `reader` becomes `writer`) is rejected by
validation, contradicting the claim that such updates are accepted.  The
field-level rule at line 52 (`self == oldSelf`, message "Roles is
immutable") freezes the contents, not merely the presence. -/
theorem roles_contents_change_rejected_counterexample :
    specOld.roles.isSome = true
      ∧ specNewContents.roles.isSome = true
      ∧ specOld.roles ≠ specNewContents.roles
      ∧ specOld.targetClusterProfile = specNewContents.targetClusterProfile
      ∧ specOld.serviceAccountName = specNewContents.serviceAccountName
      ∧ validateUpdate specOld specNewContents = false := by
  refine ⟨by decide, by decide, by decide, by decide, by decide, ?_⟩
  decide

/-- C1, amended: for every update to an `AuthTokenRequestSpec` in which
`Roles` (respectively `ClusterRoles`) remains present but its contents
change, validation rejects the update.  The source carries field-level
`self == oldSelf` rules on `Roles` (line 52) and `ClusterRoles`
(line 59), so their contents are frozen while present, exactly as for
`TargetClusterProfile` and `ServiceAccountName`; the type-level
presence rules are in addition to, not instead of, content equality. -/
theorem roles_contents_frozen (old new : AuthTokenRequestSpec)
    (h : (∃ o n, old.roles = some o ∧ new.roles = some n ∧ o ≠ n)
      ∨ (∃ o n, old.clusterRoles = some o ∧ new.clusterRoles = some n ∧ o ≠ n)) :
    validateUpdate old new = false := by
  cases hv : validateUpdate old new with
  | false => rfl
  | true =>
      rcases (validateUpdate_eq_true_iff old new).mp hv with ⟨_, _, _, _, _, hk, hck⟩
      rcases h with ⟨o, n, ho, hn, hne⟩ | ⟨o, n, ho, hn, hne⟩
      · rw [ho, hn] at hk
        exact (hne ((contentsKept_some_some o n).mp hk)).elim
      · rw [ho, hn] at hck
        exact (hne ((contentsKept_some_some o n).mp hck)).elim

/-- Witness for the amended C1 at a concrete input: the update from
`specOld` to `specNewContents` keeps `Roles` present, changes its
contents, and is rejected. -/
theorem roles_contents_frozen_witness :
    (specOld.roles = some [roleA] ∧ specNewContents.roles = some [roleB]
      ∧ [roleA] ≠ [roleB])
      ∧ validateUpdate specOld specNewContents = false :=
  ⟨⟨by decide, by decide, by decide⟩,
    roles_contents_frozen specOld specNewContents
      (Or.inl ⟨[roleA], [roleB], by decide, by decide, by decide⟩)⟩

/-- C5, counterexample: schema validation accepts a request whose
`Roles` list holds two entries sharing both namespace and name
(`roleA` twice), so the claimed set-like uniqueness by namespace+name is
not enforced — `Roles` is declared `listType=atomic` with no uniqueness
key. -/
theorem duplicate_roles_accepted_counterexample :
    validateCreate dupSpec = true
      ∧ dupSpec.roles = some [roleA, roleA]
      ∧ rolesUniqueByKey [roleA, roleA] = false := by
  refine ⟨?_, by decide, by decide⟩
  decide

/-- C5, amended: the `Roles` list is `listType=atomic` and validation
imposes no uniqueness by namespace+name: any number of copies of the
same role entry is accepted, provided the cardinality limits hold
(here, `n` copies for any `n ≤ 20`). -/
theorem duplicate_roles_accepted (p : ClusterProfileRef) (sa : String)
    (r : Role) (n : Nat) (hsa : sa.length ≤ 63) (hn : n ≤ 20) :
    validateCreate ⟨p, sa, some (List.replicate n r), none⟩ = true := by
  refine (validateCreate_eq_true_iff _).mpr ⟨hsa, ?_, by simp [withinMaxItems]⟩
  rw [withinMaxItems_some_iff, List.length_replicate]
  exact hn

/-- Witness for the amended C5 at a concrete input: two copies of
`roleA` are accepted. -/
theorem duplicate_roles_accepted_witness :
    ("svc-a".length ≤ 63 ∧ 2 ≤ 20)
      ∧ validateCreate ⟨profileA, "svc-a", some (List.replicate 2 roleA), none⟩ = true :=
  ⟨⟨by decide, by decide⟩,
    duplicate_roles_accepted profileA "svc-a" roleA 2 (by decide) (by decide)⟩

/-- C6: validation enforces the cardinality limits exactly.  When both
optional lists are present, a spec passes create-time validation iff the
service account name is at most 63 characters, the `Roles` list has at
most 20 entries and the `ClusterRoles` list has at most 20 entries: a
value over any limit is rejected, and values at or below all limits are
not rejected by these constraints. -/
theorem cardinality_limits_exact (s : AuthTokenRequestSpec)
    (rs : List Role) (crs : List ClusterRole)
    (hr : s.roles = some rs) (hcr : s.clusterRoles = some crs) :
    validateCreate s = true ↔
      s.serviceAccountName.length ≤ 63 ∧ rs.length ≤ 20 ∧ crs.length ≤ 20 := by
  rw [validateCreate_eq_true_iff, hr, hcr, withinMaxItems_some_iff,
    withinMaxItems_some_iff]

/-- Witness for C6 at a concrete input: a spec with one role and one
cluster role satisfies the equivalence. -/
theorem cardinality_limits_exact_witness :
    ((⟨profileA, "svc-a", some [roleA], some [clusterRoleA]⟩ :
        AuthTokenRequestSpec).roles = some [roleA]
      ∧ (⟨profileA, "svc-a", some [roleA], some [clusterRoleA]⟩ :
          AuthTokenRequestSpec).clusterRoles = some [clusterRoleA])
      ∧ (validateCreate ⟨profileA, "svc-a", some [roleA], some [clusterRoleA]⟩ = true ↔
          ("svc-a".length ≤ 63 ∧ [roleA].length ≤ 20 ∧ [clusterRoleA].length ≤ 20)) :=
  ⟨⟨rfl, rfl⟩,
    cardinality_limits_exact ⟨profileA, "svc-a", some [roleA], some [clusterRoleA]⟩
      [roleA] [clusterRoleA] rfl rfl⟩

/-- C10: `Role.Namespace`, `Role.Name` and `ClusterRole.Name` carry no
length or format constraint in the schema, unlike `ServiceAccountName`'s
63-character limit: a spec built from any role and cluster role
whatsoever passes create-time validation as long as the service account
name is within its limit. -/
theorem role_names_unconstrained (p : ClusterProfileRef) (sa : String)
    (r : Role) (c : ClusterRole) (hsa : sa.length ≤ 63) :
    validateCreate ⟨p, sa, some [r], some [c]⟩ = true :=
  (validateCreate_eq_true_iff _).mpr
    ⟨hsa, by rw [withinMaxItems_some_iff, List.length_singleton]; omega,
      by rw [withinMaxItems_some_iff, List.length_singleton]; omega⟩

/-- Witness for C10 at a concrete input: a role and a cluster role whose
names are 64 characters long — longer than the 63-character limit on the
service account name — still pass validation. -/
theorem role_names_unconstrained_witness :
    "svc-a".length ≤ 63
      ∧ 63 < longRole.name.length
      ∧ 63 < longClusterRole.name.length
      ∧ validateCreate ⟨profileA, "svc-a", some [longRole], some [longClusterRole]⟩ = true :=
  ⟨by decide, by decide, by decide,
    role_names_unconstrained profileA "svc-a" longRole longClusterRole (by decide)⟩

/-- C2: the ConfigMap referenced by `Status.TokenResponse` resides in
the namespace of the owning `AuthTokenRequest`, whatever reference the
publisher records; and the serialized `ConfigMapRef` carries no
`namespace` key at all, so the reference cannot even express a
cross-namespace target. -/
theorem token_response_same_namespace :
    (∀ (req : AuthTokenRequest) (ref : ConfigMapRef),
        tokenResponseNamespace (publishToken req ref) = req.metadata.nameSpace)
      ∧ "namespace" ∉ ConfigMapRef.jsonFields := by
  refine ⟨fun req ref => rfl, ?_⟩
  decide

/-! ### Lemmas about the create-if-absent reconciler model -/

theorem mem_createIfAbsent_of_mem {a : TargetObject} {s : List TargetObject}
    (o : TargetObject) (h : a ∈ s) : a ∈ createIfAbsent s o := by
  unfold createIfAbsent
  split
  · exact h
  · exact List.mem_append_left _ h

theorem mem_createIfAbsent_self (s : List TargetObject) (o : TargetObject) :
    o ∈ createIfAbsent s o := by
  unfold createIfAbsent
  split
  · assumption
  · exact List.mem_append_right _ (List.mem_singleton.mpr rfl)

theorem mem_applyAll_of_mem {a : TargetObject} {s : List TargetObject}
    (os : List TargetObject) (h : a ∈ s) : a ∈ applyAll s os := by
  induction os generalizing s with
  | nil => exact h
  | cons o os ih => exact ih (mem_createIfAbsent_of_mem o h)

theorem mem_applyAll_of_mem_desired {a : TargetObject} {os : List TargetObject}
    (s : List TargetObject) (h : a ∈ os) : a ∈ applyAll s os := by
  induction os generalizing s with
  | nil => cases h
  | cons o os ih =>
      rcases List.mem_cons.mp h with rfl | h
      · exact mem_applyAll_of_mem os (mem_createIfAbsent_self s a)
      · exact ih _ h

theorem createIfAbsent_of_mem {s : List TargetObject} {o : TargetObject}
    (h : o ∈ s) : createIfAbsent s o = s := by
  simp [createIfAbsent, h]

theorem applyAll_of_subset {s : List TargetObject} {os : List TargetObject}
    (h : ∀ o ∈ os, o ∈ s) : applyAll s os = s := by
  induction os with
  | nil => rfl
  | cons o os ih =>
      show applyAll (createIfAbsent s o) os = s
      rw [createIfAbsent_of_mem (h o (List.mem_cons_self o os))]
      exact ih fun x hx => h x (List.mem_cons_of_mem o hx)

theorem nodup_createIfAbsent {s : List TargetObject} (o : TargetObject)
    (h : s.Nodup) : (createIfAbsent s o).Nodup := by
  unfold createIfAbsent
  split
  · exact h
  · rename_i hmem
    rw [List.nodup_append]
    refine ⟨h, List.nodup_singleton o, ?_⟩
    intro a ha hb
    rw [List.mem_singleton] at hb
    subst hb
    exact hmem ha

theorem nodup_applyAll {s : List TargetObject} (os : List TargetObject)
    (h : s.Nodup) : (applyAll s os).Nodup := by
  induction os generalizing s with
  | nil => exact h
  | cons o os ih => exact ih (nodup_createIfAbsent o h)

/-- C7: reconciliation is idempotent.  Starting from any duplicate-free
cluster state, running the create-if-absent pass for the desired object
set of an unchanged spec twice yields the same cluster state as running
it once, and the resulting state is duplicate-free: repeated passes
converge and never produce duplicate objects. -/
theorem reconcile_idempotent (s : List TargetObject) (sp : AuthTokenRequestSpec)
    (h : s.Nodup) :
    applyAll (applyAll s (desiredObjects sp)) (desiredObjects sp)
        = applyAll s (desiredObjects sp)
      ∧ (applyAll s (desiredObjects sp)).Nodup :=
  ⟨applyAll_of_subset fun _ ho => mem_applyAll_of_mem_desired s ho,
    nodup_applyAll _ h⟩

/-- Witness for C7 at a concrete input: the empty cluster state and the
spec `specOld`. -/
theorem reconcile_idempotent_witness :
    (List.Nodup ([] : List TargetObject))
      ∧ (applyAll (applyAll [] (desiredObjects specOld)) (desiredObjects specOld)
            = applyAll [] (desiredObjects specOld)
          ∧ (applyAll [] (desiredObjects specOld)).Nodup) :=
  ⟨List.nodup_nil, reconcile_idempotent [] specOld List.nodup_nil⟩

/-- C8: the condition list is monotonic in record count.  Every
status-reporter operation (`setCondition`, the append/replace-by-type
update) yields a list at least as long as before, and the new condition
record — carrying the transition's status and reason — is present in the
result, so a regression is recorded rather than erased. -/
theorem conditions_never_shrink (conds : List Condition) (c : Condition) :
    conds.length ≤ (setCondition conds c).length
      ∧ ∃ x ∈ setCondition conds c,
          x.condType = c.condType ∧ x.status = c.status ∧ x.reason = c.reason := by
  unfold setCondition
  split
  · rename_i hany
    constructor
    · rw [List.length_map]
    · rw [List.any_eq_true] at hany
      rcases hany with ⟨y, hy, hyt⟩
      rw [decide_eq_true_eq] at hyt
      refine ⟨c, ?_, rfl, rfl, rfl⟩
      rw [List.mem_map]
      exact ⟨y, hy, by rw [if_pos hyt]⟩
  · constructor
    · rw [List.length_append]
      omega
    · exact ⟨c, List.mem_append_right _ (List.mem_singleton.mpr rfl), rfl, rfl, rfl⟩

/-! ### Lemmas about the call-ordering model -/

theorem reconcileTrace_sorted (sp : AuthTokenRequestSpec) (pOK mOK : Bool) :
    (reconcileTrace sp pOK mOK).Pairwise fun a b => callRank a ≤ callRank b := by
  unfold reconcileTrace
  rw [List.pairwise_append]
  refine ⟨?_, ?_, ?_⟩
  · exact List.pairwise_of_forall_mem_list fun a ha b hb => by
      rcases List.mem_map.mp ha with ⟨_, _, rfl⟩
      rcases List.mem_map.mp hb with ⟨_, _, rfl⟩
      exact Nat.le_refl _
  · cases pOK <;> cases mOK <;> simp [List.pairwise_cons, callRank]
  · intro a ha b _
    rcases List.mem_map.mp ha with ⟨_, _, rfl⟩
    exact Nat.zero_le _

theorem rank_respects_position {t : List CallEvent}
    (hs : t.Pairwise fun a b => callRank a ≤ callRank b)
    {i j : Nat} {a b : CallEvent} (ha : t.get? i = some a) (hb : t.get? j = some b)
    (hr : callRank a < callRank b) : i < j := by
  rcases List.get?_eq_some.mp ha with ⟨hi, hgi⟩
  rcases List.get?_eq_some.mp hb with ⟨hj, hgj⟩
  by_contra hij
  push_neg at hij
  rcases Nat.lt_or_ge j i with hlt | hge
  · have hpg := List.pairwise_iff_get.mp hs ⟨j, hj⟩ ⟨i, hi⟩ hlt
    rw [hgi, hgj] at hpg
    omega
  · have hije : i = j := Nat.le_antisymm hge hij
    subst hije
    have hab : a = b := by rw [← hgi, ← hgj]
    subst hab
    exact Nat.lt_irrefl _ hr

/-- C9: within a reconcile pass, every Provisioner call strictly
precedes every Minter call, every Minter call strictly precedes every
Publisher call, and the Minter is invoked only if the Provisioner
reported full success for the current spec. -/
theorem calls_strictly_ordered (sp : AuthTokenRequestSpec) (pOK mOK : Bool) :
    (∀ i j : Nat,
        (reconcileTrace sp pOK mOK).get? i = some CallEvent.provisionCall →
        (reconcileTrace sp pOK mOK).get? j = some CallEvent.mintCall → i < j)
      ∧ (∀ i j : Nat,
          (reconcileTrace sp pOK mOK).get? i = some CallEvent.mintCall →
          (reconcileTrace sp pOK mOK).get? j = some CallEvent.publishCall → i < j)
      ∧ (CallEvent.mintCall ∈ reconcileTrace sp pOK mOK → pOK = true) := by
  refine ⟨?_, ?_, ?_⟩
  · intro i j hi hj
    exact rank_respects_position (reconcileTrace_sorted sp pOK mOK) hi hj
      (by simp [callRank])
  · intro i j hi hj
    exact rank_respects_position (reconcileTrace_sorted sp pOK mOK) hi hj
      (by simp [callRank])
  · intro hm
    by_contra hp
    rw [Bool.not_eq_true] at hp
    subst hp
    unfold reconcileTrace at hm
    simp [List.mem_append, List.mem_map] at hm

/-- Witness for C9 at a concrete input: in the trace for `specOld` with
both steps succeeding, the first Provisioner call (index 0) precedes the
Minter call (index 4), which precedes the Publisher call (index 5). -/
theorem calls_strictly_ordered_witness :
    ((reconcileTrace specOld true true).get? 0 = some CallEvent.provisionCall
      ∧ (reconcileTrace specOld true true).get? 4 = some CallEvent.mintCall
      ∧ (reconcileTrace specOld true true).get? 5 = some CallEvent.publishCall)
      ∧ (0 : Nat) < 4 ∧ (4 : Nat) < 5 :=
  ⟨⟨rfl, rfl, rfl⟩,
    (calls_strictly_ordered specOld true true).1 0 4 rfl rfl,
    (calls_strictly_ordered specOld true true).2.1 4 5 rfl rfl⟩

end ClusterInventory
